import Mathlib

/-!
Shallow embedding of the ShadowID governance contracts (Arbitrum Stylus, Rust)
and proofs about them.

Embedded sources:
- `src/backend/contracts-stylus/src/dao.rs` (DAO proposal engine, proof gate)
- `src/backend/contracts-stylus/src/treasury.rs` (timelocked treasury queue)
- `src/backend/contracts-stylus/src/governance_token.rs` (checkpointed votes)
- `src/backend/contracts-stylus/examples/src/verify_noir_proof.rs` (example
  DVote DAO with a proof registry)

Modelling conventions: `Address` and `U256` values are `Nat` (U256 additions
are taken mod 2 ^ 256 where the source adds `U256` values); `[u8; 32]` byte
arrays are `List Nat`; storage maps are total functions updated with `setMap`;
`Result<T, Vec<u8>>` is `Except String T` with the ASCII error bytes as the
string; `block::timestamp()` / `msg::sender()` are explicit `now` / `caller`
arguments. Stateful methods take and return an explicit contract-state record.
-/

/-- Pointwise update of a storage map at one key, as done by `StorageMap::setter(..).set(..)`. -/
def setMap {κ β : Type} [DecidableEq κ] (m : κ → β) (k : κ) (v : β) : κ → β :=
  fun k2 => if k2 = k then v else m k2

/-- The modulus of the 256-bit machine integers used by the contracts. -/
def u256 : Nat := 2 ^ 256

/-- Addition of two `U256` values (wrapping at 2 ^ 256). -/
def addU (a b : Nat) : Nat := (a + b) % u256

/-- The check `bytes.iter().all(|&b| b == 0)` on a 32-byte array. -/
def isZero32 (bs : List Nat) : Bool := bs.all (fun b => b == 0)

/-- The all-zero 32-byte array (the `Default` value of `[u8; 32]`). -/
def zero32 : List Nat := List.replicate 32 0

/-- A sample non-zero 32-byte array, used in concrete test states. -/
def nonzero32 : List Nat := 1 :: List.replicate 31 0

/-- Stylus entry-point semantics: a public method that returns `Err` reverts
every storage write performed during the call, so the caller observes the
pre-call state together with the error. A method that returns `Ok` commits
its writes. -/
def runEntry {σ α : Type} (s0 : σ) (r : σ × Except String α) : σ × Except String α :=
  match r.2 with
  | .error e => (s0, .error e)
  | .ok a => (r.1, .ok a)

namespace DAO

/-- Proposal states, from `dao.rs` (`enum ProposalState`). -/
inductive ProposalState
  | Active
  | Passed
  | Rejected
  | Executed
  | Cancelled
deriving DecidableEq

/-- Member data with ZK verification, from `dao.rs` (`struct MemberData`). -/
structure MemberData where
  is_member : Bool
  verified : Bool
  kyc_commitment : List Nat
  proof_hash : List Nat
  verification_timestamp : Nat
  verification_type : Nat
deriving DecidableEq

/-- The `Default` value of `MemberData` (what an absent storage key yields). -/
def memberDefault : MemberData :=
  { is_member := false, verified := false, kyc_commitment := zero32,
    proof_hash := zero32, verification_timestamp := 0, verification_type := 0 }

/-- Vote record with ZK proof, from `dao.rs` (`struct VoteRecord`). -/
structure VoteRecord where
  has_voted : Bool
  choice : Nat
  weight : Nat
  proof_hash : List Nat
  timestamp : Nat
deriving DecidableEq

/-- The `Default` value of `VoteRecord`. -/
def voteRecordDefault : VoteRecord :=
  { has_voted := false, choice := 0, weight := 0, proof_hash := zero32, timestamp := 0 }

/-- Proposal data, from `dao.rs` (`struct ProposalCore`). -/
structure ProposalCore where
  id : Nat
  proposer : Nat
  title : String
  description : String
  start_time : Nat
  end_time : Nat
  for_votes : Nat
  against_votes : Nat
  abstain_votes : Nat
  state : ProposalState
  cancelled : Bool
  kyc_commitment : List Nat
  proof_hash : List Nat
deriving DecidableEq

/-- The `Default` value of `ProposalCore`. -/
def proposalDefault : ProposalCore :=
  { id := 0, proposer := 0, title := "", description := "", start_time := 0,
    end_time := 0, for_votes := 0, against_votes := 0, abstain_votes := 0,
    state := ProposalState.Active, cancelled := false,
    kyc_commitment := zero32, proof_hash := zero32 }

/-- Execution details for proposals, from `dao.rs` (`struct ExecutionData`). -/
structure ExecutionData where
  target : Nat
  value : Nat
  data : List Nat
  executed : Bool
  timelock_end : Nat
deriving DecidableEq

/-- The `Default` value of `ExecutionData`. -/
def executionDefault : ExecutionData :=
  { target := 0, value := 0, data := [], executed := false, timelock_end := 0 }

/-- The DAO contract storage touched by the embedded methods, from the
`struct DAO` storage declaration in `dao.rs`. The reentrancy guard is the
`locked` flag; a guarded scope acquires it on entry and releases it on every
exit path (`Drop`), so in this sequential embedding a guarded body leaves it
unchanged and only the entry check is observable. -/
structure State where
  owner : Nat
  proposal_count : Nat
  proposal_core : Nat → ProposalCore
  execution_data : Nat → ExecutionData
  user_votes : Nat × Nat → VoteRecord
  voting_period : Nat
  allowed_targets : Nat → Bool
  members : Nat → MemberData
  kyc_verifiers : Nat → Bool
  validated_proofs : Nat → List Nat
  locked : Bool

/-- `dao.rs::is_user_verified_in_shadowid`: the member is verified and the
stored commitment and proof hash are both non-zero. Always returns `Ok`. -/
def is_user_verified_in_shadowid (s : State) (user : Nat) : Except String Bool :=
  let member_data := s.members user
  .ok (member_data.verified && !isZero32 member_data.kyc_commitment
        && !isZero32 member_data.proof_hash)

/-- `dao.rs::is_user_verified` (public view): unwraps the helper, mapping an
error to `false`. -/
def is_user_verified (s : State) (user : Nat) : Bool :=
  match is_user_verified_in_shadowid s user with
  | .ok verified => verified
  | .error _ => false

/-- `dao.rs::is_verified_member` (public view): only the stored `verified` flag. -/
def is_verified_member (s : State) (member : Nat) : Bool :=
  (s.members member).verified

/-- `dao.rs::validate_zk_proof`: returns `Ok(false)` when the commitment or the
proof hash is all-zero; otherwise records the commitment in `validated_proofs`,
updates the member record with the supplied commitment, proof hash and the
current timestamp, and returns `Ok(true)`. -/
def validate_zk_proof (s : State) (user : Nat) (commitment proof_hash : List Nat)
    (now : Nat) : State × Except String Bool :=
  if isZero32 commitment then (s, .ok false)
  else if isZero32 proof_hash then (s, .ok false)
  else
    let s1 := { s with validated_proofs := setMap s.validated_proofs user commitment }
    let member_data := s1.members user
    let member_data2 := { member_data with
      kyc_commitment := commitment
      proof_hash := proof_hash
      verification_timestamp := now }
    ({ s1 with members := setMap s1.members user member_data2 }, .ok true)

/-- `dao.rs::verify_member`: an authorized KYC verifier marks a member
verified, stamping the verification timestamp. -/
def verify_member (s : State) (caller member now : Nat) : State × Except String Unit :=
  if !(s.kyc_verifiers caller) then (s, .error "Not authorized verifier")
  else
    let member_data := s.members member
    let member_data2 := { member_data with verified := true, verification_timestamp := now }
    ({ s with members := setMap s.members member member_data2 }, .ok ())

/-- Body of `dao.rs::vote` (the raw method body, before the entry-point revert
semantics of `runEntry` are applied): KYC gate, proof validation, one-vote
check, proposal-state and deadline checks, tally update by the fixed weight 1,
and the vote-record write. -/
def voteBody (s : State) (voter now proposal_id choice : Nat)
    (kyc_commitment proof_hash : List Nat) : State × Except String Unit :=
  match is_user_verified_in_shadowid s voter with
  | .error e => (s, .error e)
  | .ok verified =>
    if !verified then (s, .error "KYC required")
    else
      match validate_zk_proof s voter kyc_commitment proof_hash now with
      | (s1, .error e) => (s1, .error e)
      | (s1, .ok valid) =>
        if !valid then (s1, .error "Invalid ZK proof for vote")
        else
          let existing_vote := s1.user_votes (proposal_id, voter)
          if existing_vote.has_voted then
            (s1, .error "User already voted on this proposal")
          else
            let core := s1.proposal_core proposal_id
            if core.state ≠ ProposalState.Active then
              (s1, .error "Proposal is not active")
            else if core.end_time < now then
              (s1, .error "Voting period has ended")
            else
              let weight := 1
              let core2 :=
                if choice = 0 then some { core with for_votes := addU core.for_votes weight }
                else if choice = 1 then some { core with against_votes := addU core.against_votes weight }
                else if choice = 2 then some { core with abstain_votes := addU core.abstain_votes weight }
                else none
              match core2 with
              | none => (s1, .error "Invalid vote choice (must be 0, 1, or 2)")
              | some core3 =>
                let vote_record : VoteRecord :=
                  { has_voted := true, choice := choice, weight := weight,
                    proof_hash := proof_hash, timestamp := now }
                let s2 := { s1 with
                  user_votes := setMap s1.user_votes (proposal_id, voter) vote_record }
                let s3 := { s2 with
                  proposal_core := setMap s2.proposal_core proposal_id core3 }
                (s3, .ok ())

/-- The `vote` entry point: the body under Stylus revert-on-error semantics. -/
def callVote (s : State) (voter now proposal_id choice : Nat)
    (kyc_commitment proof_hash : List Nat) : State × Except String Unit :=
  runEntry s (voteBody s voter now proposal_id choice kyc_commitment proof_hash)

/-- Body of `dao.rs::create_proposal`: reentrancy-guard check, KYC gate, proof
validation, allow-list check, then creation of the proposal and execution
records and the counter increment. -/
def createProposalBody (s : State) (proposer now : Nat) (title description : String)
    (target value : Nat) (data : List Nat)
    (kyc_commitment proof_hash : List Nat) : State × Except String Nat :=
  if s.locked then (s, .error "ReentrancyGuard: reentrant call")
  else
    match is_user_verified_in_shadowid s proposer with
    | .error e => (s, .error e)
    | .ok verified =>
      if !verified then (s, .error "KYC required")
      else
        match validate_zk_proof s proposer kyc_commitment proof_hash now with
        | (s1, .error e) => (s1, .error e)
        | (s1, .ok valid) =>
          if !valid then (s1, .error "Invalid ZK proof or commitment")
          else if !(s1.allowed_targets target) then
            (s1, .error "Target contract not allowed")
          else
            let proposal_id := s1.proposal_count
            let core : ProposalCore :=
              { id := proposal_id, proposer := proposer, title := title,
                description := description, start_time := now,
                end_time := addU now s1.voting_period,
                for_votes := 0, against_votes := 0, abstain_votes := 0,
                state := ProposalState.Active, cancelled := false,
                kyc_commitment := kyc_commitment, proof_hash := proof_hash }
            let execution : ExecutionData :=
              { target := target, value := value, data := data,
                executed := false, timelock_end := 0 }
            let s2 := { s1 with
              proposal_core := setMap s1.proposal_core proposal_id core
              execution_data := setMap s1.execution_data proposal_id execution
              proposal_count := addU proposal_id 1 }
            (s2, .ok proposal_id)

/-- The `create_proposal` entry point under revert-on-error semantics. -/
def callCreateProposal (s : State) (proposer now : Nat) (title description : String)
    (target value : Nat) (data : List Nat)
    (kyc_commitment proof_hash : List Nat) : State × Except String Nat :=
  runEntry s (createProposalBody s proposer now title description target value data
    kyc_commitment proof_hash)

/-- `dao.rs::finalize_proposal`: requires an Active proposal whose voting
period has ended, then sets the state to Passed when the total vote count
reaches the fixed quorum of 100 and the for-votes strictly exceed the
against-votes, and to Rejected otherwise. -/
def finalize_proposal (s : State) (proposal_id now : Nat) : State × Except String Unit :=
  let core := s.proposal_core proposal_id
  if core.state ≠ ProposalState.Active then (s, .error "Proposal not active")
  else if now ≤ core.end_time then (s, .error "Voting period not ended")
  else
    let total_votes := addU (addU core.for_votes core.against_votes) core.abstain_votes
    let quorum_required := 100
    let newState :=
      if quorum_required ≤ total_votes ∧ core.against_votes < core.for_votes then
        ProposalState.Passed
      else ProposalState.Rejected
    ({ s with proposal_core := setMap s.proposal_core proposal_id { core with state := newState } },
      .ok ())

/-- The `finalize_proposal` entry point under revert-on-error semantics. -/
def callFinalizeProposal (s : State) (proposal_id now : Nat) : State × Except String Unit :=
  runEntry s (finalize_proposal s proposal_id now)

/-- Body of `dao.rs::execute_proposal`: reentrancy-guard check, KYC gate, proof
validation, Passed-state check, not-already-executed check, timelock check,
then marks the execution record executed and the proposal Executed. -/
def executeProposalBody (s : State) (executor now proposal_id : Nat)
    (kyc_commitment proof_hash : List Nat) : State × Except String Unit :=
  if s.locked then (s, .error "ReentrancyGuard: reentrant call")
  else
    match is_user_verified_in_shadowid s executor with
    | .error e => (s, .error e)
    | .ok verified =>
      if !verified then (s, .error "KYC required")
      else
        match validate_zk_proof s executor kyc_commitment proof_hash now with
        | (s1, .error e) => (s1, .error e)
        | (s1, .ok valid) =>
          if !valid then (s1, .error "Invalid ZK proof for execution")
          else
            let core := s1.proposal_core proposal_id
            if core.state ≠ ProposalState.Passed then
              (s1, .error "Proposal not in passed state")
            else
              let execution := s1.execution_data proposal_id
              if execution.executed then (s1, .error "Proposal already executed")
              else if now < execution.timelock_end then
                (s1, .error "Timelock period not expired")
              else
                let execution2 := { execution with executed := true }
                let core2 := { s1.proposal_core proposal_id with state := ProposalState.Executed }
                let s2 := { s1 with
                  execution_data := setMap s1.execution_data proposal_id execution2
                  proposal_core := setMap s1.proposal_core proposal_id core2 }
                (s2, .ok ())

/-- The `execute_proposal` entry point under revert-on-error semantics. -/
def callExecuteProposal (s : State) (executor now proposal_id : Nat)
    (kyc_commitment proof_hash : List Nat) : State × Except String Unit :=
  runEntry s (executeProposalBody s executor now proposal_id kyc_commitment proof_hash)

end DAO

namespace Treasury

/-- Queued withdrawal with timelock, from `treasury.rs` (`struct QueuedWithdrawal`). -/
structure QueuedWithdrawal where
  recipient : Nat
  amount : Nat
  unlock_time : Nat
  executed : Bool
  cancelled : Bool
deriving DecidableEq

/-- The `Default` value of `QueuedWithdrawal`. -/
def withdrawalDefault : QueuedWithdrawal :=
  { recipient := 0, amount := 0, unlock_time := 0, executed := false, cancelled := false }

/-- Observable treasury events (the `evm::log` calls of the embedded methods). -/
inductive TEvent
  | withdrawnETH : Nat → Nat → TEvent
  | withdrawalQueued : Nat → Nat → Nat → Nat → TEvent
  | withdrawalExecuted : Nat → Nat → Nat → TEvent
deriving DecidableEq

/-- The Treasury contract storage touched by the embedded methods, from the
`struct Treasury` storage declaration in `treasury.rs`, plus an event log.
The reentrancy guard is the `locked` flag, released on scope exit as in
`DAO.State`. -/
structure State where
  owner : Nat
  paused : Bool
  locked : Bool
  withdrawal_delay : Nat
  withdrawal_count : Nat
  queued_withdrawals : Nat → QueuedWithdrawal
  events : List TEvent

/-- `treasury.rs::only_owner`. -/
def only_owner (s : State) (caller : Nat) : Except String Unit :=
  if s.owner ≠ caller then .error "Ownable: caller is not the owner" else .ok ()

/-- `treasury.rs::when_not_paused`. -/
def when_not_paused (s : State) : Except String Unit :=
  if s.paused then .error "Pausable: paused" else .ok ()

/-- `treasury.rs::get_eth_balance`. The source returns the placeholder
constant `U256::from(0)` (the comment there reads: in a real implementation,
get the contract balance). -/
def get_eth_balance (s : State) : Nat := 0

/-- `treasury.rs::_process_eth_withdrawal`: logs `WithdrawnETH` and returns
`Ok` (the source is the simplified implementation that performs no real
transfer). -/
def process_eth_withdrawal (s : State) (toAddr amount : Nat) : State × Except String Unit :=
  ({ s with events := s.events ++ [TEvent.withdrawnETH toAddr amount] }, .ok ())

/-- Body of `treasury.rs::queue_withdrawal`: owner and pause checks, non-zero
recipient and amount checks, the sufficient-balance check, then allocation of
the next withdrawal id and the record write. -/
def queue_withdrawal (s : State) (caller now recipient amount : Nat) :
    State × Except String Nat :=
  match only_owner s caller with
  | .error e => (s, .error e)
  | .ok _ =>
    match when_not_paused s with
    | .error e => (s, .error e)
    | .ok _ =>
      if recipient = 0 then (s, .error "Invalid recipient")
      else if amount = 0 then (s, .error "Amount must be greater than 0")
      else
        let contract_balance := get_eth_balance s
        if contract_balance < amount then (s, .error "Insufficient balance")
        else
          let withdrawal_id := addU s.withdrawal_count 1
          let unlock_time := addU now s.withdrawal_delay
          let queued_withdrawal : QueuedWithdrawal :=
            { recipient := recipient, amount := amount, unlock_time := unlock_time,
              executed := false, cancelled := false }
          ({ s with
              withdrawal_count := withdrawal_id
              queued_withdrawals := setMap s.queued_withdrawals withdrawal_id queued_withdrawal
              events := s.events ++ [TEvent.withdrawalQueued withdrawal_id recipient amount unlock_time] },
            .ok withdrawal_id)

/-- Body of `treasury.rs::execute_withdrawal`: owner, pause and reentrancy
checks, existence (`unlock_time` non-zero sentinel), not-executed,
not-cancelled and timelock checks, the balance check, then marks the record
executed BEFORE calling `_process_eth_withdrawal` (checks-effects-interactions
ordering) and logs `WithdrawalExecuted`. -/
def execute_withdrawal (s : State) (caller now withdrawal_id : Nat) :
    State × Except String Unit :=
  match only_owner s caller with
  | .error e => (s, .error e)
  | .ok _ =>
    match when_not_paused s with
    | .error e => (s, .error e)
    | .ok _ =>
      if s.locked then (s, .error "ReentrancyGuard: reentrant call")
      else
        let withdrawal := s.queued_withdrawals withdrawal_id
        if withdrawal.unlock_time = 0 then (s, .error "Withdrawal does not exist")
        else if withdrawal.executed then (s, .error "Already executed")
        else if withdrawal.cancelled then (s, .error "Withdrawal cancelled")
        else if now < withdrawal.unlock_time then (s, .error "Not unlocked yet")
        else
          let contract_balance := get_eth_balance s
          if contract_balance < withdrawal.amount then (s, .error "Insufficient balance")
          else
            let s2 := { s with
              queued_withdrawals := setMap s.queued_withdrawals withdrawal_id
                { withdrawal with executed := true } }
            match process_eth_withdrawal s2 withdrawal.recipient withdrawal.amount with
            | (s3, .error e) => (s3, .error e)
            | (s3, .ok _) =>
              ({ s3 with events := s3.events ++
                  [TEvent.withdrawalExecuted withdrawal_id withdrawal.recipient withdrawal.amount] },
                .ok ())

end Treasury

namespace GovToken

/-- Voting checkpoint, from `governance_token.rs` (`struct Checkpoint`):
a timestamp (the field is named `from_block` but holds `block::timestamp()`)
and the vote count at that time. -/
structure Checkpoint where
  from_block : Nat
  votes : Nat
deriving DecidableEq

/-- The governance-token storage needed here: the per-account checkpoint
sequences. -/
structure State where
  checkpoints : Nat → List Checkpoint

/-- `governance_token.rs::_binary_search_checkpoints`: a descending linear
scan (the source comment says: linear search for simplicity) returning the
votes of the first checkpoint, counting from the end, whose timestamp does
not exceed the timepoint; `Ok(0)` when the sequence is empty or none
qualifies. -/
def binary_search_checkpoints (cps : List Checkpoint) (timepoint : Nat) :
    Except String Nat :=
  match cps.reverse.find? (fun c => decide (c.from_block ≤ timepoint)) with
  | some c => .ok c.votes
  | none => .ok 0

/-- `governance_token.rs::get_past_votes`: rejects timepoints at or after the
current time, otherwise delegates to the checkpoint scan. -/
def get_past_votes (s : State) (account timepoint now : Nat) : Except String Nat :=
  if timepoint ≥ now then .error "Timepoint must be in the past"
  else binary_search_checkpoints (s.checkpoints account) timepoint

/-- `governance_token.rs::get_votes`: the vote count of the last checkpoint,
or zero when there is none. -/
def get_votes (s : State) (account : Nat) : Nat :=
  match (s.checkpoints account).getLast? with
  | some checkpoint => checkpoint.votes
  | none => 0

end GovToken

namespace DVote

/-- Mock field element from `examples/src/verify_noir_proof.rs`. -/
structure FieldElement where
  bytes : List Nat
deriving DecidableEq

/-- `verify_noir_proof.rs::FieldElement::is_valid_bn254` (the example always
answers true). -/
def is_valid_bn254 (f : FieldElement) : Bool := true

/-- Parsed business verification inputs, from `verify_noir_proof.rs`
(`struct BusinessInputs`). -/
structure BusinessInputs where
  registration_commitment : FieldElement
  ubo_commitment : FieldElement
  revenue_commitment : FieldElement
  document_hash : FieldElement
  policy_flags : FieldElement
deriving DecidableEq

/-- `verify_noir_proof.rs::verify_noir_proof_raw`: the mock verifier accepts
any non-empty proof of at least 32 bytes, ignoring the public inputs. -/
def verify_noir_proof_raw (proof_bytes public_inputs : List Nat) : Bool :=
  !proof_bytes.isEmpty && decide (32 ≤ proof_bytes.length)

/-- `verify_noir_proof.rs::field_to_u32`: big-endian value of bytes 28..32. -/
def field_to_u32 (f : FieldElement) : Nat :=
  ((f.bytes.drop 28).take 4).foldl (fun acc b => acc * 256 + b) 0

/-- `verify_noir_proof.rs::parse_business_inputs`: requires at least five
32-byte field elements, splits the input into 32-byte chunks (each trivially
valid per `is_valid_bn254`) and maps the first five onto `BusinessInputs`. -/
def parse_business_inputs (public_inputs : List Nat) : Except String BusinessInputs :=
  if public_inputs.length < 32 * 5 then .error "Invalid public inputs length"
  else
    let count := public_inputs.length / 32
    let inputs := (List.range count).map
      (fun i => FieldElement.mk ((public_inputs.drop (i * 32)).take 32))
    if inputs.any (fun f => !is_valid_bn254 f) then
      .error "Invalid field element in public inputs"
    else
      match inputs with
      | a :: b :: c :: d :: e :: _ =>
        .ok { registration_commitment := a, ubo_commitment := b,
              revenue_commitment := c, document_hash := d, policy_flags := e }
      | _ => .error "Insufficient public inputs for business verification"

/-- `verify_noir_proof.rs::check_verification_policy`: every flag bit set in
the policy must also be set in the policy flags carried by the public inputs
(bits 1, 2, 4, 8, 16; the source truncates the policy to `u32`). -/
def check_verification_policy (inputs : BusinessInputs) (policy : Nat) : Bool :=
  let policy_u32 := policy % 2 ^ 32
  let input_policy := field_to_u32 inputs.policy_flags
  if Nat.land policy_u32 1 ≠ 0 && Nat.land input_policy 1 = 0 then false
  else if Nat.land policy_u32 2 ≠ 0 && Nat.land input_policy 2 = 0 then false
  else if Nat.land policy_u32 4 ≠ 0 && Nat.land input_policy 4 = 0 then false
  else if Nat.land policy_u32 8 ≠ 0 && Nat.land input_policy 8 = 0 then false
  else if Nat.land policy_u32 16 ≠ 0 && Nat.land input_policy 16 = 0 then false
  else true

/-- The DVote DAO storage, from `verify_noir_proof.rs` (`struct DVoteDAO`).
The maps mirror the Option-returning map API the example uses. -/
structure State where
  owner : Nat
  verified_members : Nat → Option Bool
  proof_registry : Nat → Option Bool
  verification_policy : Nat
  treasury_balance : Nat

/-- `verify_noir_proof.rs::join_dao_with_proof`. The Keccak-256 digest of
`hash_proof` is an external cryptographic primitive (the `sha3` crate), so it
is abstracted as the `hashProofFn` parameter. Every failure in the source is
the same bare `SolidityError::Revert(vec![])`, modelled as the error string
"revert". On success the caller is added as a verified member and the proof
hash is registered to prevent reuse. -/
def join_dao_with_proof (hashProofFn : List Nat → List Nat → Nat) (s : State)
    (caller : Nat) (proof_bytes public_inputs : List Nat)
    (business_commitment : Nat) : State × Except String Unit :=
  match s.verified_members caller with
  | some true => (s, .error "revert")
  | _ =>
    if !verify_noir_proof_raw proof_bytes public_inputs then (s, .error "revert")
    else
      match parse_business_inputs public_inputs with
      | .error _ => (s, .error "revert")
      | .ok parsed_inputs =>
        let policy_flags := s.verification_policy
        if !check_verification_policy parsed_inputs policy_flags then (s, .error "revert")
        else
          let proof_hash := hashProofFn proof_bytes public_inputs
          match s.proof_registry proof_hash with
          | some true => (s, .error "revert")
          | _ =>
            ({ s with
                verified_members := setMap s.verified_members caller (some true)
                proof_registry := setMap s.proof_registry proof_hash (some true) },
              .ok ())

end DVote

/-!
Concrete test states used by witnesses and counterexamples.
-/

/-- A member that is verified with non-zero commitment and proof hash. -/
def verifiedMember : DAO.MemberData :=
  { is_member := true, verified := true, kyc_commitment := nonzero32,
    proof_hash := nonzero32, verification_timestamp := 0, verification_type := 1 }

/-- An active proposal with id 1 and voting deadline 100. -/
def activeProposal : DAO.ProposalCore :=
  { DAO.proposalDefault with id := 1, proposer := 1, end_time := 100 }

/-- A DAO state with two verified members (addresses 1 and 2), an active
proposal (id 1, deadline 100), an authorized KYC verifier (address 9) and no
recorded votes. -/
def daoS0 : DAO.State :=
  { owner := 0
    proposal_count := 2
    proposal_core := fun pid => if pid = 1 then activeProposal else DAO.proposalDefault
    execution_data := fun _ => DAO.executionDefault
    user_votes := fun _ => DAO.voteRecordDefault
    voting_period := 1000
    allowed_targets := fun _ => false
    members := fun a =>
      if a = 1 then verifiedMember else if a = 2 then verifiedMember else DAO.memberDefault
    kyc_verifiers := fun a => decide (a = 9)
    validated_proofs := fun _ => zero32
    locked := false }

/-- A DAO state holding an active proposal (id 1, deadline 100) with tallies
for = 80, against = 10, abstain = 20, matching the quorum scenario. -/
def daoQuorumS : DAO.State :=
  { daoS0 with
    proposal_core := fun pid =>
      if pid = 1 then
        { activeProposal with for_votes := 80, against_votes := 10, abstain_votes := 20 }
      else DAO.proposalDefault }

/-- A treasury state owned by address 7 with one pending withdrawal (id 1,
recipient 3, amount 0, unlock time 5). -/
def treasS0 : Treasury.State :=
  { owner := 7
    paused := false
    locked := false
    withdrawal_delay := 86400
    withdrawal_count := 1
    queued_withdrawals := fun i =>
      if i = 1 then
        { recipient := 3, amount := 0, unlock_time := 5, executed := false, cancelled := false }
      else Treasury.withdrawalDefault
    events := [] }

/-- A token state where account 1 has a single checkpoint of 5 votes at time 0. -/
def govS0 : GovToken.State :=
  { checkpoints := fun a => if a = 1 then [{ from_block := 0, votes := 5 }] else [] }

/-- A token state where account 1 has checkpoints (time 1, 10 votes) and
(time 5, 20 votes). -/
def govS1 : GovToken.State :=
  { checkpoints := fun a =>
      if a = 1 then [{ from_block := 1, votes := 10 }, { from_block := 5, votes := 20 }] else [] }

/-- A DVote state where proof hash 5 is already registered as used. -/
def dvoteS0 : DVote.State :=
  { owner := 0
    verified_members := fun _ => none
    proof_registry := fun h => if h = 5 then some true else none
    verification_policy := 0
    treasury_balance := 0 }

/-!
General helper lemmas.
-/

theorem setMap_self {κ β : Type} [DecidableEq κ] (m : κ → β) (k : κ) (v : β) :
    setMap m k v k = v := by
  simp [setMap]

theorem setMap_ne {κ β : Type} [DecidableEq κ] (m : κ → β) (k k2 : κ) (v : β)
    (h : k2 ≠ k) : setMap m k v k2 = m k2 := by
  simp [setMap, h]

theorem runEntry_of_error {σ α : Type} (s0 : σ) (r : σ × Except String α) (e : String)
    (h : r.2 = .error e) : runEntry s0 r = (s0, .error e) := by
  obtain ⟨s, x⟩ := r
  cases x <;> simp_all [runEntry]

theorem runEntry_error_state {σ α : Type} (s0 : σ) (r : σ × Except String α) (e : String)
    (h : (runEntry s0 r).2 = .error e) : (runEntry s0 r).1 = s0 := by
  obtain ⟨s, x⟩ := r
  cases x <;> simp_all [runEntry]

theorem runEntry_ok_inv {σ α : Type} {s0 s1 : σ} {r : σ × Except String α} {a : α}
    (h : runEntry s0 r = (s1, .ok a)) : r = (s1, .ok a) := by
  obtain ⟨s, x⟩ := r
  cases x <;> simp_all [runEntry]

/-!
Claim theorems.
-/

/-- C7: proof validation rejects the all-zero sentinel: for every user and
proofHash, `validate_zk_proof` returns false without erroring (and without
touching state) whenever the supplied commitment is all zeros, and
symmetrically whenever the supplied proof hash is all zeros; a true result is
only possible when both are non-zero. -/
theorem C7_validate_rejects_zero_sentinel (s : DAO.State) (user : Nat)
    (commitment proof_hash : List Nat) (now : Nat) :
    (isZero32 commitment = true ∨ isZero32 proof_hash = true →
      DAO.validate_zk_proof s user commitment proof_hash now = (s, .ok false)) ∧
    ((DAO.validate_zk_proof s user commitment proof_hash now).2 = .ok true →
      isZero32 commitment = false ∧ isZero32 proof_hash = false) := by
  constructor
  · rintro (h | h) <;> simp [DAO.validate_zk_proof, h]
  · intro h
    by_cases hc : isZero32 commitment = true
    · simp [DAO.validate_zk_proof, hc] at h
    · by_cases hh : isZero32 proof_hash = true
      · simp [DAO.validate_zk_proof, hc, hh] at h
      · exact ⟨by simpa using hc, by simpa using hh⟩

/-- C7 witness: validating a zero commitment against a non-zero proof hash in
the concrete DAO state returns false without an error. -/
theorem C7_witness :
    DAO.validate_zk_proof daoS0 1 zero32 nonzero32 0 = (daoS0, .ok false) :=
  (C7_validate_rejects_zero_sentinel daoS0 1 zero32 nonzero32 0).1 (Or.inl rfl)

/-- C9: `queue_withdrawal` can never succeed: every call returns an error and
leaves the state untouched; with the owner calling on an unpaused treasury, a
zero recipient is rejected as invalid, a zero amount is rejected as invalid,
and every positive amount fails the sufficient-balance check because
`get_eth_balance` is the constant zero. -/
theorem C9_queue_withdrawal_never_succeeds (s : Treasury.State)
    (caller now recipient amount : Nat) :
    (∃ e, Treasury.queue_withdrawal s caller now recipient amount = (s, .error e)) ∧
    (caller = s.owner → s.paused = false → recipient = 0 →
      Treasury.queue_withdrawal s caller now recipient amount
        = (s, .error "Invalid recipient")) ∧
    (caller = s.owner → s.paused = false → recipient ≠ 0 → amount = 0 →
      Treasury.queue_withdrawal s caller now recipient amount
        = (s, .error "Amount must be greater than 0")) ∧
    (caller = s.owner → s.paused = false → recipient ≠ 0 → 0 < amount →
      Treasury.queue_withdrawal s caller now recipient amount
        = (s, .error "Insufficient balance")) := by
  refine ⟨?_, ?_, ?_, ?_⟩
  · by_cases ho : s.owner ≠ caller
    · exact ⟨"Ownable: caller is not the owner",
        by simp [Treasury.queue_withdrawal, Treasury.only_owner, ho]⟩
    · by_cases hp : s.paused
      · exact ⟨"Pausable: paused", by simp [Treasury.queue_withdrawal, Treasury.only_owner,
          Treasury.when_not_paused, ho, hp]⟩
      · by_cases hr : recipient = 0
        · exact ⟨"Invalid recipient", by simp [Treasury.queue_withdrawal, Treasury.only_owner,
            Treasury.when_not_paused, ho, hp, hr]⟩
        · by_cases ha : amount = 0
          · exact ⟨"Amount must be greater than 0",
              by simp [Treasury.queue_withdrawal, Treasury.only_owner,
                Treasury.when_not_paused, Treasury.get_eth_balance, ho, hp, hr, ha]⟩
          · exact ⟨"Insufficient balance",
              by simp [Treasury.queue_withdrawal, Treasury.only_owner,
                Treasury.when_not_paused, Treasury.get_eth_balance, ho, hp, hr, ha,
                Nat.pos_of_ne_zero ha]⟩
  · intro ho hp hr
    simp [Treasury.queue_withdrawal, Treasury.only_owner, Treasury.when_not_paused,
      ho.symm, hp, hr]
  · intro ho hp hr ha
    simp [Treasury.queue_withdrawal, Treasury.only_owner, Treasury.when_not_paused,
      ho.symm, hp, hr, ha]
  · intro ho hp hr ha
    simp [Treasury.queue_withdrawal, Treasury.only_owner, Treasury.when_not_paused,
      Treasury.get_eth_balance, ho.symm, hp, hr, Nat.pos_iff_ne_zero.mp ha, ha]

/-- C9 witness: the owner queueing a positive withdrawal on the concrete
treasury state fails the balance check, and the state is unchanged. -/
theorem C9_witness :
    Treasury.queue_withdrawal treasS0 7 0 3 50 = (treasS0, .error "Insufficient balance") :=
  (C9_queue_withdrawal_never_succeeds treasS0 7 0 3 50).2.2.2 rfl rfl
    (by decide) (by decide)

/-- C10: `is_user_verified` implies `is_verified_member`, but not conversely:
after an authorized verifier runs `verify_member` on a member whose stored
commitment and proof hash are all-zero, `is_verified_member` answers true
while `is_user_verified` answers false. -/
theorem C10_verification_views_disagree (s : DAO.State) (user : Nat) :
    (DAO.is_user_verified s user = true → DAO.is_verified_member s user = true) ∧
    (∀ caller now, s.kyc_verifiers caller = true →
      isZero32 (s.members user).kyc_commitment = true →
      isZero32 (s.members user).proof_hash = true →
      DAO.is_verified_member (DAO.verify_member s caller user now).1 user = true ∧
      DAO.is_user_verified (DAO.verify_member s caller user now).1 user = false) := by
  constructor
  · intro h
    simp [DAO.is_user_verified, DAO.is_user_verified_in_shadowid] at h
    simp [DAO.is_verified_member, h.1]
  · intro caller now hverif hc hh
    simp [DAO.verify_member, hverif, DAO.is_verified_member, DAO.is_user_verified,
      DAO.is_user_verified_in_shadowid, setMap_self, hc, hh]

/-- C10 witness: in the concrete DAO state, verifier 9 verifying member 5
(whose stored commitment and proof hash are zero) makes `is_verified_member`
true while `is_user_verified` stays false. -/
theorem C10_witness :
    DAO.is_verified_member (DAO.verify_member daoS0 9 5 77).1 5 = true ∧
    DAO.is_user_verified (DAO.verify_member daoS0 9 5 77).1 5 = false :=
  (C10_verification_views_disagree daoS0 5).2 9 77 rfl rfl rfl

/-- C4: every embedded mutating entry point is all-or-nothing under the
Stylus revert-on-error semantics: whenever `vote`, `create_proposal`,
`execute_proposal` or `finalize_proposal` returns an error, the resulting
state is exactly the pre-call state (so in particular the member records,
tallies and vote records are unchanged by a failing call). -/
theorem C4_error_calls_leave_state_unchanged (s : DAO.State) :
    (∀ voter now proposal_id choice kyc_commitment proof_hash e,
      (DAO.callVote s voter now proposal_id choice kyc_commitment proof_hash).2 = .error e →
      (DAO.callVote s voter now proposal_id choice kyc_commitment proof_hash).1 = s) ∧
    (∀ proposer now title description target value data kyc_commitment proof_hash e,
      (DAO.callCreateProposal s proposer now title description target value data
        kyc_commitment proof_hash).2 = .error e →
      (DAO.callCreateProposal s proposer now title description target value data
        kyc_commitment proof_hash).1 = s) ∧
    (∀ executor now proposal_id kyc_commitment proof_hash e,
      (DAO.callExecuteProposal s executor now proposal_id kyc_commitment proof_hash).2 = .error e →
      (DAO.callExecuteProposal s executor now proposal_id kyc_commitment proof_hash).1 = s) ∧
    (∀ proposal_id now e,
      (DAO.callFinalizeProposal s proposal_id now).2 = .error e →
      (DAO.callFinalizeProposal s proposal_id now).1 = s) := by
  refine ⟨?_, ?_, ?_, ?_⟩
  · intro voter now proposal_id choice kyc_commitment proof_hash e h
    exact runEntry_error_state s _ e h
  · intro proposer now title description target value data kyc_commitment proof_hash e h
    exact runEntry_error_state s _ e h
  · intro executor now proposal_id kyc_commitment proof_hash e h
    exact runEntry_error_state s _ e h
  · intro proposal_id now e h
    exact runEntry_error_state s _ e h

/-- C4 witness: an unverified caller voting on the concrete DAO state fails
(with the KYC error), and the post-call state is the pre-call state. -/
theorem C4_witness :
    (DAO.callVote daoS0 5 10 1 0 zero32 zero32).1 = daoS0 :=
  (C4_error_calls_leave_state_unchanged daoS0).1 5 10 1 0 zero32 zero32
    "KYC required" rfl

/-- C3: `finalize_proposal` fails on a non-Active proposal and when the
current time is not strictly after the deadline; otherwise it succeeds and
sets the state to Passed exactly when the wrapped vote total reaches the
fixed quorum of 100 and the for-votes strictly exceed the against-votes,
and to Rejected otherwise; a second finalize call then fails because the
state is no longer Active. -/
theorem C3_finalize_proposal_outcome (s : DAO.State) (proposal_id now : Nat) :
    ((s.proposal_core proposal_id).state ≠ DAO.ProposalState.Active →
      DAO.finalize_proposal s proposal_id now = (s, .error "Proposal not active")) ∧
    ((s.proposal_core proposal_id).state = DAO.ProposalState.Active →
      now ≤ (s.proposal_core proposal_id).end_time →
      DAO.finalize_proposal s proposal_id now = (s, .error "Voting period not ended")) ∧
    ((s.proposal_core proposal_id).state = DAO.ProposalState.Active →
      (s.proposal_core proposal_id).end_time < now →
      (DAO.finalize_proposal s proposal_id now).2 = .ok () ∧
      ((DAO.finalize_proposal s proposal_id now).1.proposal_core proposal_id).state =
        (if 100 ≤ addU (addU (s.proposal_core proposal_id).for_votes
                  (s.proposal_core proposal_id).against_votes)
                (s.proposal_core proposal_id).abstain_votes
            ∧ (s.proposal_core proposal_id).against_votes
                < (s.proposal_core proposal_id).for_votes
          then DAO.ProposalState.Passed else DAO.ProposalState.Rejected) ∧
      (∀ now2, DAO.finalize_proposal (DAO.finalize_proposal s proposal_id now).1
          proposal_id now2
        = ((DAO.finalize_proposal s proposal_id now).1, .error "Proposal not active"))) := by
  refine ⟨?_, ?_, ?_⟩
  · intro h
    simp [DAO.finalize_proposal, h]
  · intro hact hle
    simp [DAO.finalize_proposal, hact, Nat.not_lt.mpr hle]
  · intro hact hlt
    refine ⟨?_, ?_, ?_⟩
    · simp [DAO.finalize_proposal, hact, hlt, Nat.not_le.mpr hlt]
    · by_cases hq : 100 ≤ addU (addU (s.proposal_core proposal_id).for_votes
            (s.proposal_core proposal_id).against_votes)
          (s.proposal_core proposal_id).abstain_votes
        ∧ (s.proposal_core proposal_id).against_votes < (s.proposal_core proposal_id).for_votes
      · simp [DAO.finalize_proposal, hact, Nat.not_le.mpr hlt, hq, setMap_self]
      · simp [DAO.finalize_proposal, hact, Nat.not_le.mpr hlt, hq, setMap_self]
    · intro now2
      by_cases hq : 100 ≤ addU (addU (s.proposal_core proposal_id).for_votes
            (s.proposal_core proposal_id).against_votes)
          (s.proposal_core proposal_id).abstain_votes
        ∧ (s.proposal_core proposal_id).against_votes < (s.proposal_core proposal_id).for_votes
      · simp [DAO.finalize_proposal, hact, Nat.not_le.mpr hlt, hq, setMap_self]
      · simp [DAO.finalize_proposal, hact, Nat.not_le.mpr hlt, hq, setMap_self]

/-- C3 witness: with tallies for = 80, against = 10, abstain = 20 and the
fixed quorum of 100, finalizing after the deadline yields the Passed state. -/
theorem C3_witness :
    ((DAO.finalize_proposal daoQuorumS 1 101).1.proposal_core 1).state
      = DAO.ProposalState.Passed := by
  have h := (C3_finalize_proposal_outcome daoQuorumS 1 101).2.2 rfl (by decide)
  rw [h.2.1]
  decide

/-- C5: for an existing, unexecuted, uncancelled withdrawal (owner calling,
not paused, guard free), `execute_withdrawal` fails with the timelock error
exactly when the current time is strictly before the unlock time; at
`now = unlockTime` (with the balance check passing) it succeeds, and the
external transfer (`_process_eth_withdrawal`) is invoked on a state in which
the executed flag is already set. -/
theorem C5_execute_withdrawal_timelock (s : Treasury.State) (caller now withdrawal_id : Nat)
    (hown : s.owner = caller) (hpause : s.paused = false) (hlock : s.locked = false)
    (hex : (s.queued_withdrawals withdrawal_id).unlock_time ≠ 0)
    (hexec : (s.queued_withdrawals withdrawal_id).executed = false)
    (hcanc : (s.queued_withdrawals withdrawal_id).cancelled = false) :
    ((Treasury.execute_withdrawal s caller now withdrawal_id).2 = .error "Not unlocked yet"
      ↔ now < (s.queued_withdrawals withdrawal_id).unlock_time) ∧
    (now = (s.queued_withdrawals withdrawal_id).unlock_time →
      (s.queued_withdrawals withdrawal_id).amount ≤ Treasury.get_eth_balance s →
      ∃ s2 : Treasury.State,
        (s2.queued_withdrawals withdrawal_id).executed = true ∧
        Treasury.execute_withdrawal s caller now withdrawal_id =
          ({ (Treasury.process_eth_withdrawal s2
                (s.queued_withdrawals withdrawal_id).recipient
                (s.queued_withdrawals withdrawal_id).amount).1 with
              events := (Treasury.process_eth_withdrawal s2
                  (s.queued_withdrawals withdrawal_id).recipient
                  (s.queued_withdrawals withdrawal_id).amount).1.events ++
                [Treasury.TEvent.withdrawalExecuted withdrawal_id
                  (s.queued_withdrawals withdrawal_id).recipient
                  (s.queued_withdrawals withdrawal_id).amount] },
            .ok ())) := by
  constructor
  · constructor
    · intro h
      by_contra hlt
      rw [Nat.not_lt] at hlt
      by_cases hb : Treasury.get_eth_balance s < (s.queued_withdrawals withdrawal_id).amount
      · simp [Treasury.execute_withdrawal, Treasury.only_owner, Treasury.when_not_paused,
          hown, hpause, hlock, hex, hexec, hcanc, Nat.not_lt.mpr hlt, hb] at h
      · simp [Treasury.execute_withdrawal, Treasury.only_owner, Treasury.when_not_paused,
          Treasury.process_eth_withdrawal,
          hown, hpause, hlock, hex, hexec, hcanc, Nat.not_lt.mpr hlt, hb] at h
    · intro hlt
      simp [Treasury.execute_withdrawal, Treasury.only_owner, Treasury.when_not_paused,
        hown, hpause, hlock, hex, hexec, hcanc, hlt]
  · intro hnow hbal
    refine ⟨{ s with queued_withdrawals := setMap s.queued_withdrawals withdrawal_id ({ s.queued_withdrawals withdrawal_id with executed := true }) }, ?_, ?_⟩
    · simp [setMap_self]
    · have hnl : ¬ now < (s.queued_withdrawals withdrawal_id).unlock_time := by
        rw [hnow]; exact Nat.lt_irrefl _
      simp [Treasury.execute_withdrawal, Treasury.only_owner, Treasury.when_not_paused,
        Treasury.process_eth_withdrawal, hown, hpause, hlock, hex, hexec, hcanc,
        hnl, Nat.not_lt.mpr hbal]

/-- C5 witness: at time 4, before the unlock time 5 of the concrete queued
withdrawal, execution fails with the timelock error. -/
theorem C5_witness :
    (Treasury.execute_withdrawal treasS0 7 4 1).2 = .error "Not unlocked yet" :=
  ((C5_execute_withdrawal_timelock treasS0 7 4 1 rfl rfl rfl (by decide) rfl rfl).1).mpr
    (by decide)

/-- On a list whose timestamps are descending, the first hit of the scan for
a checkpoint not after `t` carries the greatest such timestamp. -/
theorem find_desc_max (t : Nat) :
    ∀ (l : List GovToken.Checkpoint),
      l.Pairwise (fun a b => b.from_block ≤ a.from_block) →
      ∀ c, l.find? (fun c2 => decide (c2.from_block ≤ t)) = some c →
      ∀ c2 ∈ l, c2.from_block ≤ t → c2.from_block ≤ c.from_block := by
  intro l
  induction l with
  | nil => intro _ c hf; simp at hf
  | cons a l ih =>
    intro hp c hf c2 hc2 hle
    rw [List.pairwise_cons] at hp
    by_cases ha : a.from_block ≤ t
    · rw [List.find?_cons_of_pos _ (by simpa using ha)] at hf
      injection hf with hf
      subst hf
      rcases List.mem_cons.mp hc2 with rfl | hmem
      · exact le_refl _
      · exact hp.1 _ hmem
    · rw [List.find?_cons_of_neg _ (by simpa using ha)] at hf
      rcases List.mem_cons.mp hc2 with rfl | hmem
      · exact absurd hle ha
      · exact ih hp.2 c hf c2 hmem hle

/-- C6: `get_past_votes(account, t)` fails whenever `t` is at or after the
current time; otherwise it returns zero when no checkpoint timestamp is ≤ t,
and, on a timestamp-sorted checkpoint sequence with at least one checkpoint
at or before t, it returns the vote count of a checkpoint whose timestamp is
the greatest one not exceeding t. -/
theorem C6_get_past_votes_spec (s : GovToken.State) (account timepoint now : Nat) :
    (now ≤ timepoint →
      GovToken.get_past_votes s account timepoint now
        = .error "Timepoint must be in the past") ∧
    (timepoint < now →
      ((∀ c ∈ s.checkpoints account, timepoint < c.from_block) →
        GovToken.get_past_votes s account timepoint now = .ok 0) ∧
      ((s.checkpoints account).Pairwise (fun a b => a.from_block ≤ b.from_block) →
        ∀ c0 ∈ s.checkpoints account, c0.from_block ≤ timepoint →
        ∃ c ∈ s.checkpoints account, c.from_block ≤ timepoint ∧
          GovToken.get_past_votes s account timepoint now = .ok c.votes ∧
          ∀ c2 ∈ s.checkpoints account, c2.from_block ≤ timepoint →
            c2.from_block ≤ c.from_block)) := by
  constructor
  · intro hge
    simp [GovToken.get_past_votes, hge]
  · intro hlt
    have hnot : ¬ timepoint ≥ now := Nat.not_le.mpr hlt
    constructor
    · intro hall
      have hnone : (s.checkpoints account).reverse.find?
          (fun c => decide (c.from_block ≤ timepoint)) = none := by
        rw [List.find?_eq_none]
        intro x hx
        simp only [decide_eq_true_eq, Nat.not_le]
        exact hall x (List.mem_reverse.mp hx)
      simp [GovToken.get_past_votes, hnot, GovToken.binary_search_checkpoints, hnone]
    · intro hsort c0 hc0 hc0le
      rcases hfind : (s.checkpoints account).reverse.find?
          (fun c => decide (c.from_block ≤ timepoint)) with _ | c
      · exfalso
        rw [List.find?_eq_none] at hfind
        exact hfind c0 (List.mem_reverse.mpr hc0) (by simpa using hc0le)
      · refine ⟨c, List.mem_reverse.mp (List.mem_of_find?_eq_some hfind), ?_, ?_, ?_⟩
        · simpa using List.find?_some hfind
        · simp [GovToken.get_past_votes, hnot, GovToken.binary_search_checkpoints, hfind]
        · intro c2 hc2 hc2le
          have hdesc : (s.checkpoints account).reverse.Pairwise
              (fun a b => b.from_block ≤ a.from_block) := by
            rw [List.pairwise_reverse]
            exact hsort
          exact find_desc_max timepoint _ hdesc c hfind c2 (List.mem_reverse.mpr hc2) hc2le

/-- C6 witness: querying time 3 (before now = 4) on checkpoints at times 1
and 5 returns the 10 votes of the time-1 checkpoint. -/
theorem C6_witness : GovToken.get_past_votes govS1 1 3 4 = .ok 10 := by
  obtain ⟨c, hc, hcle, heq, hmax⟩ :=
    ((C6_get_past_votes_spec govS1 1 3 4).2 (by decide)).2
      (by simp [govS1, List.pairwise_cons])
      { from_block := 1, votes := 10 } (by simp [govS1]) (by decide)
  rw [heq]
  have hcases : c = { from_block := 1, votes := 10 } ∨ c = { from_block := 5, votes := 20 } := by
    simpa [govS1] using hc
  rcases hcases with rfl | rfl
  · rfl
  · exact absurd hcle (by decide)

/-- Inversion of a successful `vote` body: the post-state member record is
verified with the non-zero supplied commitment and proof hash, the vote
record at `(proposal_id, voter)` is exactly the written record with the
fixed weight 1, and the chosen tally bucket grew by the wrapped addition
of 1. -/
theorem voteBody_ok_inv {s s2 : DAO.State} {voter now proposal_id choice : Nat}
    {c h : List Nat}
    (hok : DAO.voteBody s voter now proposal_id choice c h = (s2, .ok ())) :
    (s2.members voter).verified = true ∧
    isZero32 (s2.members voter).kyc_commitment = false ∧
    isZero32 (s2.members voter).proof_hash = false ∧
    s2.user_votes (proposal_id, voter)
      = { has_voted := true, choice := choice, weight := 1, proof_hash := h,
          timestamp := now } ∧
    (choice = 0 → (s2.proposal_core proposal_id).for_votes
        = addU (s.proposal_core proposal_id).for_votes 1) ∧
    (choice = 1 → (s2.proposal_core proposal_id).against_votes
        = addU (s.proposal_core proposal_id).against_votes 1) ∧
    (choice = 2 → (s2.proposal_core proposal_id).abstain_votes
        = addU (s.proposal_core proposal_id).abstain_votes 1) := by
  by_cases hver : ((s.members voter).verified && !isZero32 (s.members voter).kyc_commitment
      && !isZero32 (s.members voter).proof_hash) = true
  case neg =>
    rw [Bool.not_eq_true] at hver
    simp [DAO.voteBody, DAO.is_user_verified_in_shadowid, hver] at hok
  case pos =>
  simp only [Bool.and_eq_true] at hver
  obtain ⟨⟨hv1, hv2⟩, hv3⟩ := hver
  by_cases hc : isZero32 c = true
  · simp [DAO.voteBody, DAO.is_user_verified_in_shadowid, DAO.validate_zk_proof,
      hv1, hv2, hv3, hc] at hok
  · by_cases hh : isZero32 h = true
    · simp [DAO.voteBody, DAO.is_user_verified_in_shadowid, DAO.validate_zk_proof,
        hv1, hv2, hv3, hc, hh] at hok
    · rw [Bool.not_eq_true] at hc hh
      by_cases hvoted : (s.user_votes (proposal_id, voter)).has_voted = true
      · simp [DAO.voteBody, DAO.is_user_verified_in_shadowid, DAO.validate_zk_proof,
          hv1, hv2, hv3, hc, hh, hvoted] at hok
      · rw [Bool.not_eq_true] at hvoted
        by_cases hstate : (s.proposal_core proposal_id).state = DAO.ProposalState.Active
        case neg =>
          simp [DAO.voteBody, DAO.is_user_verified_in_shadowid, DAO.validate_zk_proof,
            hv1, hv2, hv3, hc, hh, hvoted, hstate] at hok
        case pos =>
        by_cases hend : (s.proposal_core proposal_id).end_time < now
        · simp [DAO.voteBody, DAO.is_user_verified_in_shadowid, DAO.validate_zk_proof,
            hv1, hv2, hv3, hc, hh, hvoted, hstate, hend] at hok
        · by_cases h0 : choice = 0
          · simp [DAO.voteBody, DAO.is_user_verified_in_shadowid, DAO.validate_zk_proof,
              Prod.mk.injEq, hv1, hv2, hv3, hc, hh, hvoted, hstate, hend, h0] at hok
            subst hok
            simp [setMap_self, hv1, hc, hh, h0]
          · by_cases h1 : choice = 1
            · simp [DAO.voteBody, DAO.is_user_verified_in_shadowid, DAO.validate_zk_proof,
                Prod.mk.injEq, hv1, hv2, hv3, hc, hh, hvoted, hstate, hend, h0, h1] at hok
              subst hok
              simp [setMap_self, hv1, hc, hh, h0, h1]
            · by_cases h2 : choice = 2
              · simp [DAO.voteBody, DAO.is_user_verified_in_shadowid, DAO.validate_zk_proof,
                  Prod.mk.injEq, hv1, hv2, hv3, hc, hh, hvoted, hstate, hend, h0, h1, h2] at hok
                subst hok
                simp [setMap_self, hv1, hc, hh, h0, h1, h2]
              · simp [DAO.voteBody, DAO.is_user_verified_in_shadowid, DAO.validate_zk_proof,
                  hv1, hv2, hv3, hc, hh, hvoted, hstate, hend, h0, h1, h2] at hok

/-- A vote body called while the stored record for `(proposal_id, voter)`
already has `has_voted` set (by a verified member supplying non-zero proof
data) stops with the already-voted error before touching the proposal
tallies or the stored vote record. -/
theorem voteBody_already_voted {s : DAO.State} {voter now proposal_id choice : Nat}
    {c h : List Nat}
    (hv1 : (s.members voter).verified = true)
    (hv2 : isZero32 (s.members voter).kyc_commitment = false)
    (hv3 : isZero32 (s.members voter).proof_hash = false)
    (hvoted : (s.user_votes (proposal_id, voter)).has_voted = true)
    (hc : isZero32 c = false) (hh : isZero32 h = false) :
    (DAO.voteBody s voter now proposal_id choice c h).2
        = .error "User already voted on this proposal" ∧
    (DAO.voteBody s voter now proposal_id choice c h).1.proposal_core proposal_id
        = s.proposal_core proposal_id ∧
    (DAO.voteBody s voter now proposal_id choice c h).1.user_votes (proposal_id, voter)
        = s.user_votes (proposal_id, voter) := by
  simp [DAO.voteBody, DAO.is_user_verified_in_shadowid, DAO.validate_zk_proof,
    hv1, hv2, hv3, hc, hh, hvoted]

/-- C1 counterexample: in a concrete DAO state, voter 1 votes consuming proof
hash `nonzero32`; a later vote by a different caller (voter 2) presenting the
very same proof hash also succeeds instead of failing with ProofAlreadyUsed. -/
theorem C1_counterexample :
    (DAO.callVote daoS0 1 10 1 0 nonzero32 nonzero32).2 = .ok () ∧
    (DAO.callVote (DAO.callVote daoS0 1 10 1 0 nonzero32 nonzero32).1 2 11 1 0
        nonzero32 nonzero32).2 = .ok () :=
  ⟨rfl, rfl⟩

/-- C1 amended: the main DAO contract performs no proof-hash replay
protection — `validate_zk_proof` accepts any non-zero commitment and proof
hash regardless of prior use and never reports ProofAlreadyUsed, so the
governance flows can reuse a proof hash arbitrarily often; only the example
contract method `join_dao_with_proof` rejects a proof hash already registered in
its proof registry (by reverting). -/
theorem C1_amended_no_replay_protection :
    (∀ (s : DAO.State) (user : Nat) (commitment proof_hash : List Nat) (now : Nat),
      isZero32 commitment = false → isZero32 proof_hash = false →
      (DAO.validate_zk_proof s user commitment proof_hash now).2 = .ok true) ∧
    (∀ (hashProofFn : List Nat → List Nat → Nat) (s : DVote.State) (caller : Nat)
       (proof_bytes public_inputs : List Nat) (business_commitment : Nat),
      s.proof_registry (hashProofFn proof_bytes public_inputs) = some true →
      (DVote.join_dao_with_proof hashProofFn s caller proof_bytes public_inputs
        business_commitment).2 = .error "revert") := by
  constructor
  · intro s user commitment proof_hash now h1 h2
    simp [DAO.validate_zk_proof, h1, h2]
  · intro hashProofFn s caller proof_bytes public_inputs business_commitment hreg
    unfold DVote.join_dao_with_proof
    split
    · rfl
    · by_cases hv : DVote.verify_noir_proof_raw proof_bytes public_inputs = true
      · simp only [hv, Bool.not_true, Bool.false_eq_true, if_false, ite_false]
        cases hp : DVote.parse_business_inputs public_inputs with
        | error e => simp [hp]
        | ok parsed =>
          simp only [hp]
          by_cases hcp : DVote.check_verification_policy parsed s.verification_policy = true
          · simp [hcp, hreg]
          · rw [Bool.not_eq_true] at hcp
            simp [hcp]
      · rw [Bool.not_eq_true] at hv
        simp [hv]

/-- C1 amended witness: validating the non-zero proof data in the concrete
DAO state answers true, and joining the concrete DVote state with a proof
whose (abstract) hash 5 is already registered reverts. -/
theorem C1_amended_witness :
    (DAO.validate_zk_proof daoS0 1 nonzero32 nonzero32 0).2 = .ok true ∧
    (DVote.join_dao_with_proof (fun _ _ => 5) dvoteS0 3 (List.replicate 32 1)
        (List.replicate 160 0) 0).2 = .error "revert" :=
  ⟨C1_amended_no_replay_protection.1 daoS0 1 nonzero32 nonzero32 0 rfl rfl,
   C1_amended_no_replay_protection.2 (fun _ _ => 5) dvoteS0 3 (List.replicate 32 1)
     (List.replicate 160 0) 0 rfl⟩

/-- C2: after a successful vote, a second vote call on the same proposal by
the same voter (presenting any non-zero commitment and proof hash) fails with
the already-voted error; even the un-reverted body leaves the tallies and the
stored vote record for that key untouched, so the record is written exactly
once, and the reverted entry point leaves the whole state unchanged. -/
theorem C2_vote_at_most_once (s0 s1 : DAO.State) (voter now1 proposal_id choice1 : Nat)
    (c1 h1 : List Nat)
    (hfirst : DAO.callVote s0 voter now1 proposal_id choice1 c1 h1 = (s1, .ok ())) :
    ∀ now2 choice2 (c2 h2 : List Nat), isZero32 c2 = false → isZero32 h2 = false →
      (DAO.voteBody s1 voter now2 proposal_id choice2 c2 h2).2
          = .error "User already voted on this proposal" ∧
      (DAO.voteBody s1 voter now2 proposal_id choice2 c2 h2).1.proposal_core proposal_id
          = s1.proposal_core proposal_id ∧
      (DAO.voteBody s1 voter now2 proposal_id choice2 c2 h2).1.user_votes (proposal_id, voter)
          = s1.user_votes (proposal_id, voter) ∧
      DAO.callVote s1 voter now2 proposal_id choice2 c2 h2
          = (s1, .error "User already voted on this proposal") := by
  have hbody := runEntry_ok_inv hfirst
  obtain ⟨hv1, hv2, hv3, hrec, -⟩ := voteBody_ok_inv hbody
  intro now2 choice2 c2 h2 hc2 hh2
  have hvoted : (s1.user_votes (proposal_id, voter)).has_voted = true := by rw [hrec]
  obtain ⟨ha, hcore, hrecs⟩ :=
    @voteBody_already_voted s1 voter now2 proposal_id choice2 c2 h2 hv1 hv2 hv3 hvoted hc2 hh2
  exact ⟨ha, hcore, hrecs, runEntry_of_error s1 _ _ ha⟩

/-- C2 witness: after voter 1 votes on proposal 1 in the concrete DAO state,
a second vote call by voter 1 on proposal 1 fails with the already-voted
error and leaves the state unchanged. -/
theorem C2_witness :
    DAO.callVote (DAO.callVote daoS0 1 10 1 0 nonzero32 nonzero32).1 1 11 1 1
        nonzero32 nonzero32
      = ((DAO.callVote daoS0 1 10 1 0 nonzero32 nonzero32).1,
          .error "User already voted on this proposal") :=
  (C2_vote_at_most_once daoS0 (DAO.callVote daoS0 1 10 1 0 nonzero32 nonzero32).1
    1 10 1 0 nonzero32 nonzero32 rfl 11 1 nonzero32 nonzero32 rfl rfl).2.2.2

/-- C8 counterexample: in a concrete scenario, the governance token reports a
current vote balance of 5 for voter 1, yet the weight stored by a successful
vote is 1, not 5. -/
theorem C8_counterexample :
    GovToken.get_votes govS0 1 = 5 ∧
    (DAO.callVote daoS0 1 10 1 0 nonzero32 nonzero32).2 = .ok () ∧
    ((DAO.callVote daoS0 1 10 1 0 nonzero32 nonzero32).1.user_votes (1, 1)).weight = 1 ∧
    (1 : Nat) ≠ 5 :=
  ⟨rfl, rfl, rfl, by decide⟩

/-- C8 amended: the weight recorded by a successful vote is the constant 1
(each verified user gets one vote), independent of any governance-token
balance; this constant 1 is both the amount added to the chosen tally bucket
and the weight stored in the vote record. -/
theorem C8_amended_weight_is_constant_one (s s2 : DAO.State)
    (voter now proposal_id choice : Nat) (c h : List Nat)
    (hok : DAO.callVote s voter now proposal_id choice c h = (s2, .ok ())) :
    (s2.user_votes (proposal_id, voter)).weight = 1 ∧
    (choice = 0 → (s2.proposal_core proposal_id).for_votes
        = addU (s.proposal_core proposal_id).for_votes 1) ∧
    (choice = 1 → (s2.proposal_core proposal_id).against_votes
        = addU (s.proposal_core proposal_id).against_votes 1) ∧
    (choice = 2 → (s2.proposal_core proposal_id).abstain_votes
        = addU (s.proposal_core proposal_id).abstain_votes 1) := by
  have hbody := runEntry_ok_inv hok
  obtain ⟨-, -, -, hrec, hf, hg, hb⟩ := voteBody_ok_inv hbody
  exact ⟨by rw [hrec], hf, hg, hb⟩

/-- C8 amended witness: the concrete successful vote stores weight 1 and
bumps the for-votes tally from 0 to the wrapped 0 + 1. -/
theorem C8_amended_witness :
    ((DAO.callVote daoS0 1 10 1 0 nonzero32 nonzero32).1.user_votes (1, 1)).weight = 1 ∧
    ((DAO.callVote daoS0 1 10 1 0 nonzero32 nonzero32).1.proposal_core 1).for_votes
      = addU 0 1 := by
  have h := C8_amended_weight_is_constant_one daoS0
    (DAO.callVote daoS0 1 10 1 0 nonzero32 nonzero32).1 1 10 1 0 nonzero32 nonzero32 rfl
  exact ⟨h.1, h.2.1 rfl⟩
